import Mathlib

set_option maxHeartbeats 1000000

/-! Shallow embedding of the go-lambda mutual-fund NAV service (src/main.go).
Calendar dates are modelled by the Date structure below; Go time.Time
instants are modelled by the integer second count dateSecs (midnight UTC of
the date), which is adequate because every time value flowing through the
program is either a date parsed at midnight or the zero time (01-01-0001).
The current clock and the result of the upstream fetch are inputs of the
handler, since both are external to the program. -/

structure Date where
  year : Nat
  month : Nat
  day : Nat
deriving DecidableEq

/-- Leap-year rule used by the Go time package. -/
def isLeap (y : Nat) : Bool := y % 4 == 0 && (y % 100 != 0 || y % 400 == 0)

/-- Number of days in a month, as in the Go time package (daysIn). -/
def daysIn (m y : Nat) : Nat :=
  if m = 2 then (if isLeap y then 29 else 28)
  else if m = 4 ∨ m = 6 ∨ m = 9 ∨ m = 11 then 30
  else 31

/-- Value of a decimal digit character, none otherwise. -/
def digitVal? (c : Char) : Option Nat :=
  if c = '0' then some 0
  else if c = '1' then some 1
  else if c = '2' then some 2
  else if c = '3' then some 3
  else if c = '4' then some 4
  else if c = '5' then some 5
  else if c = '6' then some 6
  else if c = '7' then some 7
  else if c = '8' then some 8
  else if c = '9' then some 9
  else none

/-- Decimal digit character for a value below ten. -/
def digitChar (n : Nat) : Char :=
  match n with
  | 0 => '0'
  | 1 => '1'
  | 2 => '2'
  | 3 => '3'
  | 4 => '4'
  | 5 => '5'
  | 6 => '6'
  | 7 => '7'
  | 8 => '8'
  | 9 => '9'
  | _ => '*'

/-- Go time.Parse with layout 02-01-2006: exactly two zero-padded digits for
the day, a dash, two for the month, a dash, four digits for the year, end of
input; the month must lie in 1..12 and the day in 1..daysIn month year. -/
def parseDate (s : String) : Option Date :=
  match s.data with
  | [d1, d2, '-', m1, m2, '-', y1, y2, y3, y4] =>
    match digitVal? d1, digitVal? d2, digitVal? m1, digitVal? m2,
        digitVal? y1, digitVal? y2, digitVal? y3, digitVal? y4 with
    | some a, some b, some c, some d, some e1, some e2, some e3, some e4 =>
      let day := a * 10 + b
      let month := c * 10 + d
      let year := e1 * 1000 + e2 * 100 + e3 * 10 + e4
      if 1 ≤ month ∧ month ≤ 12 ∧ 1 ≤ day ∧ day ≤ daysIn month year then
        some (Date.mk year month day)
      else none
    | _, _, _, _, _, _, _, _ => none
  | _ => none

/-- Day number of a calendar date (days since 1970-01-01, the standard civil
calendar bijection, as computed inside the Go time package). -/
def rataDie (d : Date) : Int :=
  let y : Int := if d.month ≤ 2 then (d.year : Int) - 1 else (d.year : Int)
  let era : Int := Int.fdiv y 400
  let yoe : Int := y - era * 400
  let mp : Int := ((d.month : Int) + 9) % 12
  let doy : Int := (153 * mp + 2) / 5 + (d.day : Int) - 1
  let doe : Int := yoe * 365 + yoe / 4 - yoe / 100 + doy
  era * 146097 + doe - 719468

/-- The instant (in seconds) of midnight UTC on a date: the time.Time value
that parsing the date produces. -/
def dateSecs (d : Date) : Int := rataDie d * 86400

/-- The date of the zero time.Time value: January 1 of year 1. -/
def dateZero : Date := Date.mk 1 1 1

/-- time.Time.IsZero on the instants this program produces: the instant
equals the zero-value instant. -/
def Date.isZero (d : Date) : Prop := dateSecs d = dateSecs dateZero

instance (d : Date) : Decidable d.isZero := by
  unfold Date.isZero
  exact inferInstance

/-- Digits of a value below 100, zero padded to width two (Go appendInt
with width 2, as used by Format for the 02 and 01 layout fields). -/
def pad2chars (n : Nat) : List Char :=
  if n < 100 then [digitChar (n / 10), digitChar (n % 10)]
  else (Nat.repr n).data

/-- Digits of a value below 10000, zero padded to width four (Go appendInt
with width 4, as used by Format for the 2006 layout field). -/
def pad4chars (n : Nat) : List Char :=
  if n < 10000 then
    [digitChar (n / 1000), digitChar (n / 100 % 10), digitChar (n / 10 % 10),
      digitChar (n % 10)]
  else (Nat.repr n).data

/-- Go time.Time.Format with layout 02-01-2006. -/
def formatDate (d : Date) : String :=
  String.mk (pad2chars d.day ++ '-' :: (pad2chars d.month ++ '-' :: pad4chars d.year))

/-- The meta object of the upstream fund document (Fund.Meta in main.go). -/
structure Meta where
  fundHouse : String
  schemeType : String
  schemeCategory : String
  schemeCode : Int
  schemeName : String
deriving DecidableEq

/-- The zero value of the meta struct, compared against in the handler. -/
def Meta.empty : Meta := Meta.mk "" "" "" 0 ""

/-- One raw upstream NAV entry (the anonymous struct in Fund.Data). -/
structure RawPoint where
  date : String
  nav : String
deriving DecidableEq

/-- DataPoint in main.go. -/
structure DataPoint where
  date : String
  nav : String
deriving DecidableEq

/-- Fund in main.go: decoded upstream response. -/
structure Fund where
  meta : Meta
  data : List RawPoint
deriving DecidableEq

/-- Response in main.go; the period field with omitempty is an Option. -/
structure Response where
  meta : Meta
  period : Option String
  data : List DataPoint
deriving DecidableEq

/-- events.APIGatewayProxyResponse as used by main.go. -/
structure APIGatewayProxyResponse where
  statusCode : Nat
  body : String
  headers : List (String × String)
deriving DecidableEq

/-- strconv.Atoi success: an optional sign, then at least one digit, and the
value fits in a 64 bit int. -/
def digitsVal (l : List Char) : Nat :=
  l.foldl (fun acc c => acc * 10 + (c.toNat - 48)) 0

def isValidInteger (value : String) : Bool :=
  match value.data with
  | [] => false
  | c :: rest =>
    let digits := if c = '-' ∨ c = '+' then rest else c :: rest
    decide (digits ≠ []) && digits.all Char.isDigit &&
      (if c = '-' then decide (digitsVal digits ≤ 2 ^ 63)
       else decide (digitsVal digits ≤ 2 ^ 63 - 1))

/-- parseDates in main.go. -/
def parseDates (startDate endDate : String) : Except String (Date × Date) :=
  match parseDate startDate with
  | none => Except.error ("invalid start date format. use dd-mm-yyyy")
  | some s =>
    match parseDate endDate with
    | none => Except.error ("invalid end date format. use dd-mm-yyyy")
    | some e => Except.ok (s, e)

/-- validateAndParseDates in main.go; now is the instant of time.Now. -/
def validateAndParseDates (now : Int) (startDate endDate : String) :
    Except String (Date × Date) :=
  if startDate ≠ "" ∧ endDate ≠ "" then
    match parseDates startDate endDate with
    | Except.error e => Except.error e
    | Except.ok (s, e) =>
      if now < dateSecs e then
        Except.error ("end date cannot be in the future")
      else if dateSecs e < dateSecs s then
        Except.error ("start date cannot be after end date")
      else Except.ok (s, e)
  else if startDate = "" ∧ endDate = "" then
    Except.ok (dateZero, dateZero)
  else
    Except.error ("both start and end dates are required in the format dd-mm-yyyy")

/-- filterData in main.go: keep a point when both bounds are the zero time,
or when its parsed date lies between them; drop unparseable dates. -/
def filterData (data : List RawPoint) (start end_ : Date) : List DataPoint :=
  data.filterMap fun item =>
    match parseDate item.date with
    | none => none
    | some d =>
      if (start.isZero ∧ end_.isZero) ∨
          ((dateSecs d = dateSecs start ∨ dateSecs start < dateSecs d) ∧
           (dateSecs d = dateSecs end_ ∨ dateSecs d < dateSecs end_)) then
        some (DataPoint.mk item.date item.nav)
      else none

/-- createSuccessResponse in main.go. -/
def createSuccessResponse (meta : Meta) (data : List DataPoint)
    (start end_ : Date) : Response :=
  Response.mk meta
    (if ¬ start.isZero ∧ ¬ end_.isZero then
      some (formatDate start ++ " to " ++ formatDate end_)
    else none)
    data

/-- Go json string encoding of one character (encoding/json with the default
HTML escaping). -/
def goEscapeChar (c : Char) : List Char :=
  if c = '"' then ['\\', '"']
  else if c = '\\' then ['\\', '\\']
  else if c = '\n' then ['\\', 'n']
  else if c = '\r' then ['\\', 'r']
  else if c = '\t' then ['\\', 't']
  else if c.toNat < 32 ∨ c = '<' ∨ c = '>' ∨ c = '&' then
    ['\\', 'u', '0', '0', digitChar (c.toNat / 16),
      (if c.toNat % 16 < 10 then digitChar (c.toNat % 16)
       else Char.ofNat (c.toNat % 16 + 87))]
  else if c.toNat = 8232 ∨ c.toNat = 8233 then
    ['\\', 'u', '2', '0', '2',
      (if c.toNat % 16 < 10 then digitChar (c.toNat % 16)
       else Char.ofNat (c.toNat % 16 + 87))]
  else [c]

/-- Go json.Marshal of a string value. -/
def goJsonString (s : String) : String :=
  String.mk ('"' :: s.data.foldr (fun c acc => goEscapeChar c ++ acc) ['"'])

/-- Go json.Marshal of the Response struct. A nil slice (the result of a
filter that kept nothing) marshals as null. This marshalling never fails, so
the error branch after json.Marshal in the handler is dead. -/
def jsonMarshalResponse (r : Response) : String :=
  "\x7b\"meta\":\x7b\"fund_house\":" ++ goJsonString r.meta.fundHouse ++
  ",\"scheme_type\":" ++ goJsonString r.meta.schemeType ++
  ",\"scheme_category\":" ++ goJsonString r.meta.schemeCategory ++
  ",\"scheme_code\":" ++ toString r.meta.schemeCode ++
  ",\"scheme_name\":" ++ goJsonString r.meta.schemeName ++ "\x7d" ++
  (match r.period with
   | some p => ",\"period\":" ++ goJsonString p
   | none => "") ++
  ",\"data\":" ++
  (match r.data with
   | [] => "null"
   | l =>
     "[" ++
       String.intercalate ","
         (l.map fun p =>
           "\x7b\"date\":" ++ goJsonString p.date ++ ",\"nav\":" ++
             goJsonString p.nav ++ "\x7d") ++
       "]") ++
  "\x7d"

/-- createErrorResponse in main.go: the message is spliced into the body by
Sprintf with no json escaping; the Go error result is always nil. -/
def createErrorResponse (statusCode : Nat) (message : String) :
    APIGatewayProxyResponse × Option String :=
  (APIGatewayProxyResponse.mk statusCode
    ("\x7b\"error\": \"" ++ message ++ "\"\x7d")
    [("Content-Type", "application/json")], none)

/-- Handler in main.go. The clock and the outcome of fetchFundData are
passed in, the latter carrying the already wrapped error message on
failure. -/
def Handler (now : Int) (mutualFundID startDate endDate : String)
    (fetchResult : Except String Fund) : APIGatewayProxyResponse × Option String :=
  if mutualFundID = "" then
    createErrorResponse 400 ("mutualFundID query parameter is required")
  else if isValidInteger mutualFundID = false then
    createErrorResponse 400 ("mutualFundID must be an integer")
  else
    match validateAndParseDates now startDate endDate with
    | Except.error e => createErrorResponse 400 e
    | Except.ok (start, end_) =>
      match fetchResult with
      | Except.error e => createErrorResponse 500 e
      | Except.ok fund =>
        if fund.meta = Meta.empty then
          createErrorResponse 400 ("Invalid mutualFundID")
        else
          ({ statusCode := 200,
             body := jsonMarshalResponse
               (createSuccessResponse fund.meta
                 (filterData fund.data start end_) start end_),
             headers := [("Content-Type", "application/json")] }, none)

/-! Definitions written from the words of the spec, for refinement claims. -/

/-- Modelled from the spec: the subsequence of upstream points whose date
parses in dd-mm-yyyy and lies between start and end_ inclusive, date-only
comparison, in the original order. -/
def specRangeFilter (data : List RawPoint) (start end_ : Date) : List DataPoint :=
  data.filterMap fun item =>
    match parseDate item.date with
    | none => none
    | some d =>
      if dateSecs start ≤ dateSecs d ∧ dateSecs d ≤ dateSecs end_ then
        some (DataPoint.mk item.date item.nav)
      else none

/-- Modelled from the spec: every point with a parseable date passes
through, unparseable dates are dropped. -/
def passThroughFilter (data : List RawPoint) : List DataPoint :=
  data.filterMap fun item =>
    match parseDate item.date with
    | none => none
    | some _ => some (DataPoint.mk item.date item.nav)

/-! A small checker for json documents of the shape produced for failures:
an object with a single error member holding a string. Used to state what a
well-formed error body is. -/

/-- Skip json whitespace. -/
def skipWs : List Char → List Char
  | [] => []
  | c :: r =>
    if c = ' ' ∨ c = '\t' ∨ c = '\n' ∨ c = '\r' then skipWs r else c :: r

/-- Consume one expected character. -/
def expectCh (c : Char) (l : List Char) : Option (List Char) :=
  match l with
  | x :: r => if x = c then some r else none
  | [] => none

/-- Unescape a single character escape of a json string literal. -/
def jsonUnescape (c : Char) : Option Char :=
  if c = '"' then some '"'
  else if c = '\\' then some '\\'
  else if c = '/' then some '/'
  else if c = 'b' then some (Char.ofNat 8)
  else if c = 'f' then some (Char.ofNat 12)
  else if c = 'n' then some '\n'
  else if c = 'r' then some '\r'
  else if c = 't' then some '\t'
  else none

/-- Hex digit value. -/
def hexVal? (c : Char) : Option Nat :=
  match digitVal? c with
  | some v => some v
  | none =>
    if c = 'a' ∨ c = 'A' then some 10
    else if c = 'b' ∨ c = 'B' then some 11
    else if c = 'c' ∨ c = 'C' then some 12
    else if c = 'd' ∨ c = 'D' then some 13
    else if c = 'e' ∨ c = 'E' then some 14
    else if c = 'f' ∨ c = 'F' then some 15
    else none

/-- Body of a json string literal after the opening quote: returns the
denoted characters and the rest of the input after the closing quote. -/
def parseStrBody : List Char → Option (List Char × List Char)
  | [] => none
  | c :: rest =>
    if c = '"' then some ([], rest)
    else if c = '\\' then
      match rest with
      | 'u' :: h1 :: h2 :: h3 :: h4 :: r2 =>
        match hexVal? h1, hexVal? h2, hexVal? h3, hexVal? h4 with
        | some v1, some v2, some v3, some v4 =>
          match parseStrBody r2 with
          | some (sx, rem) =>
            some (Char.ofNat (v1 * 4096 + v2 * 256 + v3 * 16 + v4) :: sx, rem)
          | none => none
        | _, _, _, _ => none
      | e :: r2 =>
        match jsonUnescape e with
        | some ch =>
          match parseStrBody r2 with
          | some (sx, rem) => some (ch :: sx, rem)
          | none => none
        | none => none
      | [] => none
    else if 32 ≤ c.toNat then
      match parseStrBody rest with
      | some (sx, rem) => some (c :: sx, rem)
      | none => none
    else none

/-- A json string literal: an opening quote then a body. -/
def parseStr (l : List Char) : Option (List Char × List Char) :=
  match l with
  | '"' :: r => parseStrBody r
  | _ => none

/-- Decode a json document that consists of one object with a single member
named error whose value is a string; returns that string. -/
def errJsonDecode (s : String) : Option String :=
  (expectCh '\x7b' (skipWs s.data)).bind fun r1 =>
  (parseStr (skipWs r1)).bind fun kr =>
  if kr.1 = ['e', 'r', 'r', 'o', 'r'] then
    (expectCh ':' (skipWs kr.2)).bind fun r3 =>
    (parseStr (skipWs r3)).bind fun mr =>
    (expectCh '\x7d' (skipWs mr.2)).bind fun r5 =>
    if skipWs r5 = [] then some (String.mk mr.1) else none
  else none

/-- A message whose characters need no json escaping: no quote, no
backslash, no control character. -/
def msgJsonSafe (m : String) : Bool :=
  m.data.all fun c => decide (c ≠ '"') && decide (c ≠ '\\') && decide (32 ≤ c.toNat)

/-! Helper lemmas. -/

lemma digitVal?_eq (c : Char) (v : Nat) (h : digitVal? c = some v) :
    v < 10 ∧ digitChar v = c := by
  unfold digitVal? at h
  split_ifs at h
  all_goals first
    | exact Option.noConfusion h
    | (injection h with hv; subst_vars; exact ⟨by omega, by rfl⟩)

lemma parseDate_format (s : String) (d : Date) (h : parseDate s = some d) :
    formatDate d = s := by
  obtain ⟨l⟩ := s
  unfold parseDate at h
  split at h
  case h_2 => exact Option.noConfusion h
  case h_1 d1 d2 m1 m2 y1 y2 y3 y4 hleq =>
    split at h
    case h_2 => exact Option.noConfusion h
    case h_1 a b c dd e1 e2 e3 e4 ha hb hc hd he1 he2 he3 he4 =>
      have hl : l = [d1, d2, '-', m1, m2, '-', y1, y2, y3, y4] := hleq
      subst hl
      simp only [] at h
      split at h
      case isFalse => exact Option.noConfusion h
      case isTrue hr =>
        injection h with h
        subst h
        obtain ⟨ha1, ha2⟩ := digitVal?_eq _ _ ha
        obtain ⟨hb1, hb2⟩ := digitVal?_eq _ _ hb
        obtain ⟨hc1, hc2⟩ := digitVal?_eq _ _ hc
        obtain ⟨hd1, hd2⟩ := digitVal?_eq _ _ hd
        obtain ⟨he11, he12⟩ := digitVal?_eq _ _ he1
        obtain ⟨he21, he22⟩ := digitVal?_eq _ _ he2
        obtain ⟨he31, he32⟩ := digitVal?_eq _ _ he3
        obtain ⟨he41, he42⟩ := digitVal?_eq _ _ he4
        dsimp only [formatDate, pad2chars, pad4chars]
        rw [if_pos (show a * 10 + b < 100 by omega),
          if_pos (show c * 10 + dd < 100 by omega),
          if_pos (show e1 * 1000 + e2 * 100 + e3 * 10 + e4 < 10000 by omega)]
        have q1 : (a * 10 + b) / 10 = a := by omega
        have q2 : (a * 10 + b) % 10 = b := by omega
        have q3 : (c * 10 + dd) / 10 = c := by omega
        have q4 : (c * 10 + dd) % 10 = dd := by omega
        have q5 : (e1 * 1000 + e2 * 100 + e3 * 10 + e4) / 1000 = e1 := by omega
        have q6 : (e1 * 1000 + e2 * 100 + e3 * 10 + e4) / 100 % 10 = e2 := by omega
        have q7 : (e1 * 1000 + e2 * 100 + e3 * 10 + e4) / 10 % 10 = e3 := by omega
        have q8 : (e1 * 1000 + e2 * 100 + e3 * 10 + e4) % 10 = e4 := by omega
        rw [q1, q2, q3, q4, q5, q6, q7, q8]
        rw [ha2, hb2, hc2, hd2, he12, he22, he32, he42]
        rfl

lemma parseDate_ne_empty (s : String) (d : Date) (h : parseDate s = some d) :
    s ≠ "" := by
  intro he
  subst he
  exact Option.noConfusion ((show parseDate ("") = none from rfl) ▸ h)

lemma validateAndParseDates_ok (now : Int) (s e : String) (ds de : Date)
    (h : validateAndParseDates now s e = Except.ok (ds, de)) :
    (s = "" ∧ e = "" ∧ ds = dateZero ∧ de = dateZero) ∨
    (parseDate s = some ds ∧ parseDate e = some de ∧ dateSecs de ≤ now ∧
      dateSecs ds ≤ dateSecs de) := by
  unfold validateAndParseDates at h
  split_ifs at h with h1 h2
  · cases hps : parseDate s with
    | none => simp [parseDates, hps] at h
    | some a =>
      cases hpe : parseDate e with
      | none => simp [parseDates, hps, hpe] at h
      | some b =>
        simp only [parseDates, hps, hpe] at h
        split_ifs at h with hf hi
        all_goals first
          | exact Except.noConfusion h
          | (simp only [Except.ok.injEq, Prod.mk.injEq] at h;
             obtain ⟨hx, hy⟩ := h; subst hx; subst hy;
             right; exact ⟨rfl, rfl, by omega, by omega⟩)
  · injection h with h
    injection h with hx hy
    exact Or.inl ⟨h2.1, h2.2, hx.symm, hy.symm⟩

lemma filterData_zero_eq (data : List RawPoint) :
    filterData data dateZero dateZero = passThroughFilter data := by
  unfold filterData passThroughFilter
  apply List.filterMap_congr
  intro item _
  cases hp : parseDate item.date with
  | none => rfl
  | some d =>
    show (if _ ∨ _ then _ else _) = _
    rw [if_pos (Or.inl ⟨rfl, rfl⟩)]

lemma passThroughFilter_cons (a : RawPoint) (l : List RawPoint) :
    passThroughFilter (a :: l) =
      (match parseDate a.date with
       | none => passThroughFilter l
       | some _ => DataPoint.mk a.date a.nav :: passThroughFilter l) := by
  unfold passThroughFilter
  rw [List.filterMap_cons]
  cases parseDate a.date <;> rfl

lemma passThroughFilter_length (data : List RawPoint) :
    (passThroughFilter data).length +
      data.countP (fun it => (parseDate it.date).isNone) = data.length := by
  induction data with
  | nil => rfl
  | cons a l ih =>
    rw [passThroughFilter_cons, List.countP_cons, List.length_cons]
    cases hp : parseDate a.date with
    | none => simp only [hp, Option.isNone_none, if_pos]; omega
    | some d =>
      simp [hp]
      omega

lemma filterData_range (data : List RawPoint) (start end_ : Date)
    (h : ¬ (start.isZero ∧ end_.isZero)) :
    filterData data start end_ = specRangeFilter data start end_ := by
  unfold filterData specRangeFilter
  apply List.filterMap_congr
  intro item _
  cases hp : parseDate item.date with
  | none => rfl
  | some d =>
    show (if _ ∨ _ then _ else _) = (if _ ∧ _ then _ else _)
    by_cases hc : dateSecs start ≤ dateSecs d ∧ dateSecs d ≤ dateSecs end_
    · obtain ⟨hc1, hc2⟩ := hc
      rw [if_pos (Or.inr ⟨by omega, by omega⟩), if_pos ⟨hc1, hc2⟩]
    · rw [if_neg ?hc1, if_neg hc]
      case hc1 =>
        intro hcon
        cases hcon with
        | inl hz => exact h hz
        | inr hr =>
          obtain ⟨hr1, hr2⟩ := hr
          exact hc ⟨by omega, by omega⟩

lemma handler_param_missing (now : Int) (s e : String) (fr : Except String Fund) :
    Handler now ("") s e fr =
      createErrorResponse 400 ("mutualFundID query parameter is required") := by
  unfold Handler
  rw [if_pos rfl]

lemma handler_param_invalid (now : Int) (id s e : String) (fr : Except String Fund)
    (hid : id ≠ "") (hint : isValidInteger id = false) :
    Handler now id s e fr =
      createErrorResponse 400 ("mutualFundID must be an integer") := by
  unfold Handler
  rw [if_neg hid, if_pos hint]

lemma handler_date_error (now : Int) (id s e m : String) (fr : Except String Fund)
    (hid : id ≠ "") (hint : isValidInteger id = true)
    (hv : validateAndParseDates now s e = Except.error m) :
    Handler now id s e fr = createErrorResponse 400 m := by
  unfold Handler
  rw [if_neg hid, if_neg (by simp [hint]), hv]

lemma handler_fetch_error (now : Int) (id s e fe : String) (ds de : Date)
    (hid : id ≠ "") (hint : isValidInteger id = true)
    (hv : validateAndParseDates now s e = Except.ok (ds, de)) :
    Handler now id s e (Except.error fe) = createErrorResponse 500 fe := by
  unfold Handler
  rw [if_neg hid, if_neg (by simp [hint]), hv]

lemma handler_empty_meta (now : Int) (id s e : String) (ds de : Date) (fund : Fund)
    (hid : id ≠ "") (hint : isValidInteger id = true)
    (hv : validateAndParseDates now s e = Except.ok (ds, de))
    (hm : fund.meta = Meta.empty) :
    Handler now id s e (Except.ok fund) =
      createErrorResponse 400 ("Invalid mutualFundID") := by
  unfold Handler
  rw [if_neg hid, if_neg (by simp [hint]), hv]
  exact if_pos hm

lemma handler_success (now : Int) (id s e : String) (ds de : Date) (fund : Fund)
    (hid : id ≠ "") (hint : isValidInteger id = true)
    (hv : validateAndParseDates now s e = Except.ok (ds, de))
    (hm : fund.meta ≠ Meta.empty) :
    Handler now id s e (Except.ok fund) =
      (APIGatewayProxyResponse.mk 200
        (jsonMarshalResponse
          (createSuccessResponse fund.meta (filterData fund.data ds de) ds de))
        [("Content-Type", "application/json")], none) := by
  unfold Handler
  rw [if_neg hid, if_neg (by simp [hint]), hv]
  exact if_neg hm

lemma parseStrBody_append (l suffix : List Char)
    (h : ∀ c ∈ l, c ≠ '"' ∧ c ≠ '\\' ∧ 32 ≤ c.toNat) :
    parseStrBody (l ++ '"' :: suffix) = some (l, suffix) := by
  induction l with
  | nil =>
    show parseStrBody ('"' :: suffix) = some ([], suffix)
    unfold parseStrBody
    rw [if_pos rfl]
  | cons c t ih =>
    obtain ⟨h1, h2, h3⟩ := h c (by simp)
    show parseStrBody (c :: (t ++ '"' :: suffix)) = some (c :: t, suffix)
    unfold parseStrBody
    rw [if_neg h1, if_neg h2, if_pos h3, ih (fun x hx => h x (by simp [hx]))]

lemma errJsonDecode_safe (m : String) (h : msgJsonSafe m = true) :
    errJsonDecode ("\x7b\"error\": \"" ++ m ++ "\"\x7d") = some m := by
  obtain ⟨md⟩ := m
  have hsafe : ∀ c ∈ md, c ≠ '"' ∧ c ≠ '\\' ∧ 32 ≤ c.toNat := by
    intro c hc
    have hx := List.all_eq_true.mp h c hc
    simp only [Bool.and_eq_true, decide_eq_true_eq] at hx
    exact ⟨hx.1.1, hx.1.2, hx.2⟩
  have hdata : ("\x7b\"error\": \"" ++ String.mk md ++ "\"\x7d").data
      = '\x7b' :: '"' :: 'e' :: 'r' :: 'r' :: 'o' :: 'r' :: '"' :: ':' :: ' ' :: '"' ::
          (md ++ ['"', '\x7d']) := by
    rw [String.data_append, String.data_append, List.append_assoc]
    rfl
  have h1 : parseStrBody ('e' :: 'r' :: 'r' :: 'o' :: 'r' :: '"' ::
        (':' :: ' ' :: '"' :: (md ++ ['"', '\x7d']))) =
      some (['e', 'r', 'r', 'o', 'r'], ':' :: ' ' :: '"' :: (md ++ ['"', '\x7d'])) :=
    parseStrBody_append ['e', 'r', 'r', 'o', 'r'] _ (by decide)
  have h2 : parseStrBody (md ++ '"' :: ['\x7d']) = some (md, ['\x7d']) :=
    parseStrBody_append md ['\x7d'] hsafe
  simp +decide [errJsonDecode, hdata, skipWs, expectCh, parseStr, h1, h2]

/-! Claim theorems. -/

/-- C1 (amended): for every accepted date range whose parsed pair is not the
all-zero pair 01-01-0001..01-01-0001, filterData returns exactly the
subsequence of upstream points whose date parses in dd-mm-yyyy and lies
between start and end_ inclusive, in the original upstream order. -/
theorem C1_filter_is_range_subsequence (now : Int) (s e : String)
    (start end_ : Date) (data : List RawPoint)
    (hacc : validateAndParseDates now s e = Except.ok (start, end_))
    (hnz : ¬ (start.isZero ∧ end_.isZero)) :
    filterData data start end_ = specRangeFilter data start end_ :=
  filterData_range data start end_ hnz

/-- Witness for C1 on the spec example: range 01-01-2023 to 31-01-2023 over
points dated 15-01-2023, 28-02-2023, 02-01-2023. -/
theorem C1_witness :
    validateAndParseDates 1700000000 ("01-01-2023") ("31-01-2023") =
      Except.ok (Date.mk 2023 1 1, Date.mk 2023 1 31) ∧
    ¬ ((Date.mk 2023 1 1).isZero ∧ (Date.mk 2023 1 31).isZero) ∧
    filterData
        [RawPoint.mk ("15-01-2023") ("10.5"), RawPoint.mk ("28-02-2023") ("11.0"),
          RawPoint.mk ("02-01-2023") ("9.8")]
        (Date.mk 2023 1 1) (Date.mk 2023 1 31) =
      specRangeFilter
        [RawPoint.mk ("15-01-2023") ("10.5"), RawPoint.mk ("28-02-2023") ("11.0"),
          RawPoint.mk ("02-01-2023") ("9.8")]
        (Date.mk 2023 1 1) (Date.mk 2023 1 31) :=
  ⟨rfl, by decide,
    C1_filter_is_range_subsequence 1700000000 ("01-01-2023") ("31-01-2023")
      (Date.mk 2023 1 1) (Date.mk 2023 1 31)
      [RawPoint.mk ("15-01-2023") ("10.5"), RawPoint.mk ("28-02-2023") ("11.0"),
        RawPoint.mk ("02-01-2023") ("9.8")]
      rfl (by decide)⟩

/-- C1 counterexample: the range 01-01-0001..01-01-0001 is accepted, yet
filterData keeps a point dated 02-01-0001 that lies strictly outside the
range, so the output is not the claimed subsequence. -/
theorem C1_counterexample :
    validateAndParseDates 0 ("01-01-0001") ("01-01-0001") =
      Except.ok (dateZero, dateZero) ∧
    filterData [RawPoint.mk ("02-01-0001") ("10.0")] dateZero dateZero =
      [DataPoint.mk ("02-01-0001") ("10.0")] ∧
    specRangeFilter [RawPoint.mk ("02-01-0001") ("10.0")] dateZero dateZero = [] ∧
    ¬ dateSecs (Date.mk 1 1 2) ≤ dateSecs dateZero :=
  ⟨rfl, rfl, rfl, by decide⟩

/-- C2 (amended): the pipeline gates run in the order Parser, then Range
validation, then Fetcher, then Metadata check, then Filter and Build, and
the first failing gate short-circuits to the failure branch; in particular a
request with invalid date parameters and a failing upstream fetch surfaces
the date-validation error, not the fetch error. -/
theorem C2_gate_order (now : Int) (id s e : String) :
    (id = "" → ∀ fr, Handler now id s e fr =
      createErrorResponse 400 ("mutualFundID query parameter is required")) ∧
    (id ≠ "" → isValidInteger id = false → ∀ fr, Handler now id s e fr =
      createErrorResponse 400 ("mutualFundID must be an integer")) ∧
    (id ≠ "" → isValidInteger id = true → ∀ m,
      validateAndParseDates now s e = Except.error m →
      ∀ fr, Handler now id s e fr = createErrorResponse 400 m) ∧
    (id ≠ "" → isValidInteger id = true → ∀ ds de,
      validateAndParseDates now s e = Except.ok (ds, de) →
      ∀ fe, Handler now id s e (Except.error fe) = createErrorResponse 500 fe) ∧
    (id ≠ "" → isValidInteger id = true → ∀ ds de,
      validateAndParseDates now s e = Except.ok (ds, de) →
      ∀ fund, fund.meta = Meta.empty →
        Handler now id s e (Except.ok fund) =
          createErrorResponse 400 ("Invalid mutualFundID")) ∧
    (id ≠ "" → isValidInteger id = true → ∀ ds de,
      validateAndParseDates now s e = Except.ok (ds, de) →
      ∀ fund, fund.meta ≠ Meta.empty →
        Handler now id s e (Except.ok fund) =
          (APIGatewayProxyResponse.mk 200
            (jsonMarshalResponse
              (createSuccessResponse fund.meta (filterData fund.data ds de) ds de))
            [("Content-Type", "application/json")], none)) := by
  refine ⟨?_, ?_, ?_, ?_, ?_, ?_⟩
  · intro h fr
    subst h
    exact handler_param_missing now s e fr
  · intro h1 h2 fr
    exact handler_param_invalid now id s e fr h1 h2
  · intro h1 h2 m hv fr
    exact handler_date_error now id s e m fr h1 h2 hv
  · intro h1 h2 ds de hv fe
    exact handler_fetch_error now id s e fe ds de h1 h2 hv
  · intro h1 h2 ds de hv fund hm
    exact handler_empty_meta now id s e ds de fund h1 h2 hv hm
  · intro h1 h2 ds de hv fund hm
    exact handler_success now id s e ds de fund h1 h2 hv hm

/-- Witness for C2: a failing date gate short-circuits the handler before
the fetch result is consulted. -/
theorem C2_witness :
    ("1" : String) ≠ "" ∧ isValidInteger ("1") = true ∧
    validateAndParseDates 0 ("zz") ("zz") =
      Except.error ("invalid start date format. use dd-mm-yyyy") ∧
    Handler 0 ("1") ("zz") ("zz") (Except.error ("boom")) =
      createErrorResponse 400 ("invalid start date format. use dd-mm-yyyy") :=
  ⟨by decide, by decide, rfl,
    (C2_gate_order 0 ("1") ("zz") ("zz")).2.2.1 (by decide) (by decide)
      ("invalid start date format. use dd-mm-yyyy") rfl (Except.error ("boom"))⟩

/-- C2 counterexample: with invalid date parameters and a failing fetch the
handler surfaces the date-validation error with status 400, not the fetch
error with status 500 that the claimed order (Fetcher before Range
validation) would produce. -/
theorem C2_counterexample :
    (Handler 0 ("1") ("zz") ("zz") (Except.error ("fetch failed"))).1 =
      APIGatewayProxyResponse.mk 400
        ("\x7b\"error\": \"invalid start date format. use dd-mm-yyyy\"\x7d")
        [("Content-Type", "application/json")] ∧
    (Handler 0 ("1") ("zz") ("zz") (Except.error ("fetch failed"))).1.statusCode ≠ 500 :=
  ⟨rfl, by decide⟩

/-- C3 (amended): in a success response the period field is present iff a
date range was supplied and accepted and neither parsed date is the zero
date 01-01-0001; when either side is the zero date the period is absent;
when present it equals start, the text " to ", then end, both rendered in
dd-mm-yyyy, identical to the strings the caller supplied. -/
theorem C3_period_field (now : Int) (s e : String) (ds de : Date)
    (h : validateAndParseDates now s e = Except.ok (ds, de))
    (meta : Meta) (data : List DataPoint) :
    ((¬ ds.isZero ∧ ¬ de.isZero) →
      (createSuccessResponse meta data ds de).period =
        some (formatDate ds ++ " to " ++ formatDate de)) ∧
    ((ds.isZero ∨ de.isZero) →
      (createSuccessResponse meta data ds de).period = none) ∧
    (s = "" ∧ e = "" → ds = dateZero ∧ de = dateZero) ∧
    ((s ≠ "" ∨ e ≠ "") →
      parseDate s = some ds ∧ parseDate e = some de ∧
      formatDate ds = s ∧ formatDate de = e) := by
  refine ⟨?_, ?_, ?_, ?_⟩
  · intro hnz
    unfold createSuccessResponse
    rw [if_pos hnz]
  · intro hz
    unfold createSuccessResponse
    rw [if_neg (by tauto)]
  · intro hse
    rcases validateAndParseDates_ok now s e ds de h with h0 | h0
    · exact ⟨h0.2.2.1, h0.2.2.2⟩
    · exact absurd hse.1 (parseDate_ne_empty s ds h0.1)
  · intro hne
    rcases validateAndParseDates_ok now s e ds de h with h0 | h0
    · cases hne with
      | inl hx => exact absurd h0.1 hx
      | inr hx => exact absurd h0.2.1 hx
    · exact ⟨h0.1, h0.2.1, parseDate_format s ds h0.1, parseDate_format e de h0.2.1⟩

/-- Witness for C3: the accepted range 01-01-2023..31-01-2023 produces the
period label 01-01-2023 to 31-01-2023. -/
theorem C3_witness :
    validateAndParseDates 1700000000 ("01-01-2023") ("31-01-2023") =
      Except.ok (Date.mk 2023 1 1, Date.mk 2023 1 31) ∧
    (¬ (Date.mk 2023 1 1).isZero ∧ ¬ (Date.mk 2023 1 31).isZero) ∧
    (createSuccessResponse Meta.empty [] (Date.mk 2023 1 1)
        (Date.mk 2023 1 31)).period = some ("01-01-2023 to 31-01-2023") := by
  refine ⟨rfl, by decide, ?_⟩
  have hp := (C3_period_field 1700000000 ("01-01-2023") ("31-01-2023")
    (Date.mk 2023 1 1) (Date.mk 2023 1 31) rfl Meta.empty []).1 (by decide)
  exact hp.trans rfl

/-- C3 counterexample: the range 01-01-0001..15-06-2020 is supplied and
accepted, with only its start side equal to the zero date, yet the period
field is absent from the success response. -/
theorem C3_counterexample :
    validateAndParseDates 1700000000 ("01-01-0001") ("15-06-2020") =
      Except.ok (dateZero, Date.mk 2020 6 15) ∧
    (createSuccessResponse (Meta.mk ("house") ("type") ("cat") 1 ("name")) []
        dateZero (Date.mk 2020 6 15)).period = none :=
  ⟨rfl, rfl⟩

/-- C4: with both date parameters empty, validation yields the zero pair,
every upstream point with a parseable dd-mm-yyyy date passes through the
filter, the output length is the upstream length minus the entries with
unparseable dates, and the period field is absent. -/
theorem C4_no_dates (now : Int) (data : List RawPoint) (meta : Meta) :
    validateAndParseDates now ("") ("") = Except.ok (dateZero, dateZero) ∧
    filterData data dateZero dateZero = passThroughFilter data ∧
    (filterData data dateZero dateZero).length =
      data.length - data.countP (fun it => (parseDate it.date).isNone) ∧
    (createSuccessResponse meta (filterData data dateZero dateZero) dateZero
      dateZero).period = none := by
  refine ⟨rfl, filterData_zero_eq data, ?_, ?_⟩
  · rw [filterData_zero_eq data]
    have := passThroughFilter_length data
    omega
  · unfold createSuccessResponse
    rw [if_neg (fun hx => hx.1 rfl)]

/-- C5 (amended): every failure body is literally the error object with the
message spliced in by Sprintf with no json escaping; whenever the message
contains no quote, backslash or control character the body is a well-formed
json error document whose error member equals the message; and every handler
response carries status 200, 400 or 500. -/
theorem C5_error_body (sc : Nat) (msg : String) :
    (createErrorResponse sc msg).1.body = "\x7b\"error\": \"" ++ msg ++ "\"\x7d" ∧
    (createErrorResponse sc msg).1.statusCode = sc ∧
    (msgJsonSafe msg = true →
      errJsonDecode (createErrorResponse sc msg).1.body = some msg) ∧
    ∀ now id s e fr, (Handler now id s e fr).1.statusCode = 200 ∨
      (Handler now id s e fr).1.statusCode = 400 ∨
      (Handler now id s e fr).1.statusCode = 500 := by
  refine ⟨rfl, rfl, ?_, ?_⟩
  · intro hsafe
    exact errJsonDecode_safe msg hsafe
  · intro now id s e fr
    unfold Handler createErrorResponse
    repeat' split
    all_goals simp

/-- Witness for C5: a quote-free message round-trips through the error body
as a well-formed json error document. -/
theorem C5_witness :
    msgJsonSafe ("Invalid mutualFundID") = true ∧
    errJsonDecode ((createErrorResponse 400 ("Invalid mutualFundID")).1.body) =
      some ("Invalid mutualFundID") :=
  ⟨by decide, (C5_error_body 400 ("Invalid mutualFundID")).2.2.1 (by decide)⟩

/-- C5 counterexample: an upstream fetch error whose text contains quotes,
as Go http.Get errors always do because they quote the URL, yields a failure
body that is not a well-formed json error document. -/
theorem C5_counterexample :
    (Handler 0 ("1") ("") ("") (Except.error
        ("error fetching data from API: Get \"https://api.mfapi.in/mf/1\": connection refused"))).1.statusCode
      = 500 ∧
    errJsonDecode ((Handler 0 ("1") ("") ("") (Except.error
        ("error fetching data from API: Get \"https://api.mfapi.in/mf/1\": connection refused"))).1.body)
      = none :=
  ⟨rfl, rfl⟩

/-- C6: for a well-formed dd-mm-yyyy pair, an end date strictly after the
clock fails with the future-end-date error, and otherwise a start date
strictly after the end date fails with the inverted-range error; both reach
the caller through the handler with status 400. -/
theorem C6_future_and_inverted (now : Int) (s e : String) (ds de : Date)
    (hs : parseDate s = some ds) (he : parseDate e = some de) :
    (now < dateSecs de →
      validateAndParseDates now s e =
        Except.error ("end date cannot be in the future") ∧
      ∀ id fr, id ≠ "" → isValidInteger id = true →
        Handler now id s e fr =
          createErrorResponse 400 ("end date cannot be in the future")) ∧
    (dateSecs de ≤ now → dateSecs de < dateSecs ds →
      validateAndParseDates now s e =
        Except.error ("start date cannot be after end date") ∧
      ∀ id fr, id ≠ "" → isValidInteger id = true →
        Handler now id s e fr =
          createErrorResponse 400 ("start date cannot be after end date")) := by
  have hne_s := parseDate_ne_empty s ds hs
  have hne_e := parseDate_ne_empty e de he
  constructor
  · intro hf
    have hv : validateAndParseDates now s e =
        Except.error ("end date cannot be in the future") := by
      unfold validateAndParseDates
      rw [if_pos ⟨hne_s, hne_e⟩]
      simp only [parseDates, hs, he]
      rw [if_pos hf]
    exact ⟨hv, fun id fr hid hint => handler_date_error now id s e _ fr hid hint hv⟩
  · intro hok hinv
    have hv : validateAndParseDates now s e =
        Except.error ("start date cannot be after end date") := by
      unfold validateAndParseDates
      rw [if_pos ⟨hne_s, hne_e⟩]
      simp only [parseDates, hs, he]
      rw [if_neg (by omega), if_pos hinv]
    exact ⟨hv, fun id fr hid hint => handler_date_error now id s e _ fr hid hint hv⟩

/-- Witness for C6: with the clock at the epoch, the end date 02-01-2023
lies in the future and is rejected. -/
theorem C6_witness :
    parseDate ("01-01-2023") = some (Date.mk 2023 1 1) ∧
    parseDate ("02-01-2023") = some (Date.mk 2023 1 2) ∧
    (0 : Int) < dateSecs (Date.mk 2023 1 2) ∧
    validateAndParseDates 0 ("01-01-2023") ("02-01-2023") =
      Except.error ("end date cannot be in the future") :=
  ⟨rfl, rfl, by decide,
    ((C6_future_and_inverted 0 ("01-01-2023") ("02-01-2023")
      (Date.mk 2023 1 1) (Date.mk 2023 1 2) rfl rfl).1 (by decide)).1⟩

/-- C7: supplying exactly one of start and end, whichever side and whatever
its content, fails with the incomplete-date-range message, and the handler
returns it with status 400. -/
theorem C7_incomplete_range (now : Int) (s e : String)
    (h : (s = "" ∧ e ≠ "") ∨ (s ≠ "" ∧ e = "")) :
    validateAndParseDates now s e =
      Except.error ("both start and end dates are required in the format dd-mm-yyyy") ∧
    ∀ id fr, id ≠ "" → isValidInteger id = true →
      Handler now id s e fr =
        createErrorResponse 400
          ("both start and end dates are required in the format dd-mm-yyyy") := by
  have hv : validateAndParseDates now s e =
      Except.error ("both start and end dates are required in the format dd-mm-yyyy") := by
    unfold validateAndParseDates
    rcases h with ⟨h1, h2⟩ | ⟨h1, h2⟩
    · rw [if_neg (by tauto), if_neg (by tauto)]
    · rw [if_neg (by tauto), if_neg (by tauto)]
  exact ⟨hv, fun id fr hid hint => handler_date_error now id s e _ fr hid hint hv⟩

/-- Witness for C7: only the start date supplied. -/
theorem C7_witness :
    ((("01-01-2023" : String) = "" ∧ ("" : String) ≠ "") ∨
      (("01-01-2023" : String) ≠ "" ∧ ("" : String) = "")) ∧
    validateAndParseDates 0 ("01-01-2023") ("") =
      Except.error ("both start and end dates are required in the format dd-mm-yyyy") :=
  ⟨Or.inr ⟨by decide, rfl⟩,
    (C7_incomplete_range 0 ("01-01-2023") ("") (Or.inr ⟨by decide, rfl⟩)).1⟩

/-- C8: when the fetch succeeds but the metadata equals the all-zero
sentinel, the handler fails with Invalid mutualFundID and client-error
status 400, whatever NAV data accompanies it. -/
theorem C8_invalid_fund (now : Int) (id s e : String) (ds de : Date) (fund : Fund)
    (hid : id ≠ "") (hint : isValidInteger id = true)
    (hv : validateAndParseDates now s e = Except.ok (ds, de))
    (hm : fund.meta = Meta.empty) :
    Handler now id s e (Except.ok fund) =
      createErrorResponse 400 ("Invalid mutualFundID") ∧
    (createErrorResponse 400 ("Invalid mutualFundID")).1.statusCode = 400 :=
  ⟨handler_empty_meta now id s e ds de fund hid hint hv hm, rfl⟩

/-- Witness for C8: fund id 119598 with empty upstream metadata and a
nonempty NAV series is rejected as an invalid fund id. -/
theorem C8_witness :
    ("119598" : String) ≠ "" ∧ isValidInteger ("119598") = true ∧
    validateAndParseDates 0 ("") ("") = Except.ok (dateZero, dateZero) ∧
    (Fund.mk Meta.empty [RawPoint.mk ("15-01-2023") ("10.0")]).meta = Meta.empty ∧
    Handler 0 ("119598") ("") ("")
        (Except.ok (Fund.mk Meta.empty [RawPoint.mk ("15-01-2023") ("10.0")])) =
      createErrorResponse 400 ("Invalid mutualFundID") :=
  ⟨by decide, by decide, rfl, rfl,
    (C8_invalid_fund 0 ("119598") ("") ("") dateZero dateZero
      (Fund.mk Meta.empty [RawPoint.mk ("15-01-2023") ("10.0")])
      (by decide) (by decide) rfl rfl).1⟩

/-- C9: the well-formed pair 01-01-0001 and 01-01-0001 parses to the zero
value of the date type; range validation accepts it, and the handler then
behaves exactly as if no range had been supplied: the handler output equals
the output for empty date parameters, every parseable point passes the
filter, and the period label is omitted. -/
theorem C9_zero_value_range (now : Int) (h : dateSecs dateZero ≤ now) :
    validateAndParseDates now ("01-01-0001") ("01-01-0001") =
      Except.ok (dateZero, dateZero) ∧
    (∀ id fr, Handler now id ("01-01-0001") ("01-01-0001") fr =
      Handler now id ("") ("") fr) ∧
    (∀ data, filterData data dateZero dateZero = passThroughFilter data) ∧
    (∀ meta dps, (createSuccessResponse meta dps dateZero dateZero).period = none) := by
  have hv : validateAndParseDates now ("01-01-0001") ("01-01-0001") =
      Except.ok (dateZero, dateZero) := by
    unfold validateAndParseDates
    rw [if_pos ⟨by decide, by decide⟩]
    show (if now < dateSecs dateZero then
        Except.error ("end date cannot be in the future")
      else if dateSecs dateZero < dateSecs dateZero then
        Except.error ("start date cannot be after end date")
      else Except.ok (dateZero, dateZero)) = Except.ok (dateZero, dateZero)
    rw [if_neg (by omega), if_neg (by omega)]
  refine ⟨hv, ?_, filterData_zero_eq, ?_⟩
  · intro id fr
    unfold Handler
    rw [hv,
      (show validateAndParseDates now ("") ("") = Except.ok (dateZero, dateZero)
        from rfl)]
  · intro meta dps
    unfold createSuccessResponse
    rw [if_neg (fun hx => hx.1 rfl)]

/-- Witness for C9 at the epoch clock. -/
theorem C9_witness :
    dateSecs dateZero ≤ (0 : Int) ∧
    validateAndParseDates 0 ("01-01-0001") ("01-01-0001") =
      Except.ok (dateZero, dateZero) :=
  ⟨by decide, (C9_zero_value_range 0 (by decide)).1⟩

/-- C10: on every input the handler returns a nil Go error together with a
complete response, and every response carries the json content type
header. -/
theorem C10_nil_error_json_header (now : Int) (id s e : String)
    (fr : Except String Fund) :
    (Handler now id s e fr).2 = none ∧
    (Handler now id s e fr).1.headers = [("Content-Type", "application/json")] := by
  unfold Handler createErrorResponse
  repeat' split
  all_goals simp
